import Mathlib

/-!
Verification of the key-status evaluation engine (`status/status.go` of the
fluidkeys repository) against its specification.

Modelling conventions:

* An instant (`time.Time`) is a Unix timestamp in whole seconds, UTC, as an
  unbounded `Int`.  The engine only ever adds fixed durations to instants,
  compares them (`Before`/`After` are strict `<`), and extracts calendar
  fields, so second granularity is faithful: every time the code constructs
  (creation time plus a whole number of seconds of lifetime, month starts)
  is second-aligned, and `time.Now()` is abstracted into an explicit `now`
  parameter (the spec requires the current time to be injectable).
* Durations (`time.Duration`) are whole seconds as `Int`.  The constants
  `tenDays`/`thirtyDays`/`fortyFiveDays` are `time.Hour * 24 * n` in the
  source; only their second values matter here.
* Go's `panic` (in `getDaysUntilExpiry`, `getDaysSinceExpiry`, `earliest`)
  is modelled by `Option`: `none` is a panic that propagates to the caller,
  exactly as an unrecovered Go panic aborts `GetKeyWarnings`.
* Calendar arithmetic (`now.Date()`, `time.Date(y, m, 1, ...)` used by
  `beginningOfMonth`) is embedded by transcribing the Go standard library's
  own algorithms from `time/time.go`: `absDate`, `daysSinceEpoch`,
  `daysBefore`, `isLeap` and the `absoluteZeroYear` offset, with `Int`
  floor division (Go works on the non-negative absolute scale, where its
  unsigned division coincides with floor division).
-/

/-! ## Go `time` package internals (transcribed from `time/time.go`) -/

/-- `daysPer400Years = 365*400 + 97` in Go. -/
def daysPer400Years : Int := 146097

/-- `daysPer100Years = 365*100 + 24` in Go. -/
def daysPer100Years : Int := 36524

/-- `daysPer4Years = 365*4 + 1` in Go. -/
def daysPer4Years : Int := 1461

/-- The year of the absolute zero instant, `absoluteZeroYear` in Go's
`time/time.go`; chosen there so that absolute times are non-negative and
the year is one more than a multiple of 400. -/
def absoluteZeroYear : Int := -292277022399

/-- `isLeap` from `time/time.go`. -/
def isLeap (year : Int) : Bool :=
  year % 4 == 0 && (year % 100 != 0 || year % 400 == 0)

/-- The `daysBefore` array of `time/time.go`: days in a non-leap year before
the start of (1-based) month `m + 1`; indices outside `0..12` follow the
clamping that the callers below never exercise. -/
def daysBefore (m : Int) : Int :=
  if m ≤ 0 then 0
  else if m = 1 then 31
  else if m = 2 then 59
  else if m = 3 then 90
  else if m = 4 then 120
  else if m = 5 then 151
  else if m = 6 then 181
  else if m = 7 then 212
  else if m = 8 then 243
  else if m = 9 then 273
  else if m = 10 then 304
  else if m = 11 then 334
  else 365

/-- `absDate(abs, full=true)` from `time/time.go`, on a day count `d` of the
absolute scale: returns `(year, month, day)` with month `1..12`.
The `n -= n >> 2` cap of the Go source is written `n - n / 4`. -/
def absDate (d : Int) : Int × Int × Int :=
  let n400 := d / daysPer400Years
  let d1 := d - daysPer400Years * n400
  let n100 := d1 / daysPer100Years
  let n100' := n100 - n100 / 4
  let d2 := d1 - daysPer100Years * n100'
  let n4 := d2 / daysPer4Years
  let d3 := d2 - daysPer4Years * n4
  let n1 := d3 / 365
  let n1' := n1 - n1 / 4
  let d4 := d3 - 365 * n1'
  let year := 400 * n400 + 100 * n100' + 4 * n4 + n1' + absoluteZeroYear
  let yday := d4
  if isLeap year ∧ yday = 59 then (year, 2, 29)
  else
    let day := if isLeap year ∧ yday > 59 then yday - 1 else yday
    let month := day / 31
    let mend := daysBefore (month + 1)
    let month' := if day ≥ mend then month + 1 else month
    let begin := if day ≥ mend then mend else daysBefore month
    (year, month' + 1, day - begin + 1)

/-- The month/day extraction tail of `absDate` (everything after the
400/100/4/1-year cascade has produced the year and the day of year), split
out so that evaluations of `absDate` can be stated at an explicit year and
day of year. -/
def yearDayToDate (year yday : Int) : Int × Int × Int :=
  if isLeap year ∧ yday = 59 then (year, 2, 29)
  else
    let day := if isLeap year ∧ yday > 59 then yday - 1 else yday
    let month := day / 31
    let mend := daysBefore (month + 1)
    let month' := if day ≥ mend then month + 1 else month
    let begin := if day ≥ mend then mend else daysBefore month
    (year, month' + 1, day - begin + 1)

/-- `daysSinceEpoch(year)` from `time/time.go`: days from the absolute zero
instant to January 1 of `year`. -/
def daysSinceEpoch (year : Int) : Int :=
  let y := year - absoluteZeroYear
  let n400 := y / 400
  let y1 := y - 400 * n400
  let d := daysPer400Years * n400
  let n100 := y1 / 100
  let y2 := y1 - 100 * n100
  let d1 := d + daysPer100Years * n100
  let n4 := y2 / 4
  let y3 := y2 - 4 * n4
  let d2 := d1 + daysPer4Years * n4
  d2 + 365 * y3

/-- Absolute day number of the Unix epoch 1970-01-01. -/
def unixEpochDays : Int := daysSinceEpoch 1970

/-- `t.Date()` for a Unix timestamp in seconds: Go converts to the absolute
scale (`t.abs()`), divides by `secondsPerDay`, and runs `absDate`. -/
def dateOfUnix (t : Int) : Int × Int × Int := absDate (t / 86400 + unixEpochDays)

/-- `time.Date(year, month, day, 0, 0, 0, 0, time.UTC).Unix()` for an
in-range month: `daysSinceEpoch` plus `daysBefore[month-1]`, plus one for
February 29 of a leap year when `month >= March`, plus `day - 1`. -/
def dateToUnix (year month day : Int) : Int :=
  86400 * (daysSinceEpoch year + daysBefore (month - 1) +
    (if isLeap year ∧ 3 ≤ month then 1 else 0) + (day - 1) - unixEpochDays)

/-- Absolute day number of the first day of the month of `(year, month)`,
as computed by `dateToUnix _ _ 1`. -/
def monthStartDays (y m : Int) : Int :=
  daysSinceEpoch y + daysBefore (m - 1) + (if isLeap y ∧ 3 ≤ m then 1 else 0)

/-! ## The `status` package (transcribed from `status/status.go`) -/

/-- `tenDays`; an instant (`time.Time`) is an `Int` of Unix seconds (UTC)
and a `time.Duration` an `Int` of seconds throughout. -/
def tenDays : Int := 86400 * 10

def thirtyDays : Int := 86400 * 30

def fortyFiveDays : Int := 86400 * 45

/-- The fields of an `openpgp` (self- or binding) signature that the engine
reads: `KeyLifetimeSecs *uint32` (a `uint32` value, or `nil`) and the three
capability flags. -/
structure Signature where
  KeyLifetimeSecs : Option Nat
  FlagsValid : Bool
  FlagEncryptCommunications : Bool
  FlagEncryptStorage : Bool
  deriving DecidableEq, Repr

structure PublicKey where
  KeyId : Nat
  CreationTime : Int
  deriving DecidableEq, Repr

structure Subkey where
  PublicKey : PublicKey
  Sig : Signature
  deriving DecidableEq, Repr

structure Identity where
  SelfSignature : Signature
  deriving DecidableEq, Repr

structure PgpKey where
  PrimaryKey : PublicKey
  Identities : List Identity
  Subkeys : List Subkey
  deriving DecidableEq, Repr

/-- The warning kinds of the `status` package (`keywarning.go`, whose
constants are referenced by `status.go`). -/
inductive WarningType where
  | NoValidEncryptionSubkey
  | SubkeyOverdueForRotation
  | SubkeyDueForRotation
  | SubkeyLongExpiry
  | SubkeyNoExpiry
  | PrimaryKeyExpired
  | PrimaryKeyOverdueForRotation
  | PrimaryKeyDueForRotation
  | PrimaryKeyLongExpiry
  | PrimaryKeyNoExpiry
  deriving DecidableEq, Repr

/-- `KeyWarning`, with the fields `status.go` populates; unset fields keep
their Go zero value.  The Go field `Type` is written `Type'`. -/
structure KeyWarning where
  Type' : WarningType
  SubkeyId : Nat := 0
  DaysUntilExpiry : Nat := 0
  DaysSinceExpiry : Nat := 0
  deriving DecidableEq, Repr

/-- `calculateExpiry`: nil or zero lifetime means no expiry, otherwise
creation time plus the lifetime in seconds (the `.In(time.UTC)` of the
source is the identity on instants). -/
def calculateExpiry (creationTime : Int) (lifetimeSecs : Option Nat) : Option Int :=
  match lifetimeSecs with
  | none => none
  | some l => if l = 0 then none else some (creationTime + (l : Int))

/-- `calculateNextRotationTime`: 30 days before the expiry. -/
def calculateNextRotationTime (expiry : Int) : Int := expiry - thirtyDays

/-- `isExpired`: `expiry.Before(now)`. -/
def isExpired (expiry now : Int) : Bool := expiry < now

/-- `isOverdueForRotation`: `nextRotation.Add(tenDays).Before(now)`. -/
def isOverdueForRotation (nextRotation now : Int) : Bool := nextRotation + tenDays < now

/-- `isDueForRotation`: `nextRotation.Before(now)`. -/
def isDueForRotation (nextRotation now : Int) : Bool := nextRotation < now

/-- `inDays`: `int(duration.Seconds() / 86400)`.  Go's `int(...)` conversion
truncates toward zero; on second-aligned durations of realistic magnitude
the float64 computation is exact, so this is truncating division. -/
def inDays (duration : Int) : Int :=
  if 0 ≤ duration then duration / 86400 else -((-duration) / 86400)

/-- `getDaysUntilExpiry`: whole 24-hour periods until `expiry`; panics
(`none`) when negative. -/
def getDaysUntilExpiry (expiry now : Int) : Option Nat :=
  let days := inDays (expiry - now)
  if days < 0 then none else some days.toNat

/-- `getDaysSinceExpiry`: whole 24-hour periods since `expiry`; panics
(`none`) when negative. -/
def getDaysSinceExpiry (expiry now : Int) : Option Nat :=
  let days := inDays (now - expiry)
  if days < 0 then none else some days.toNat

/-- `getSubkeyExpiry`: the subkey's own creation time with its binding
signature's lifetime. -/
def getSubkeyExpiry (subkey : Subkey) : Option Int :=
  calculateExpiry subkey.PublicKey.CreationTime subkey.Sig.KeyLifetimeSecs

/-- The loop body of `getEarliestUidExpiry`: every identity resolved against
the primary key's creation time, keeping those that have an expiry. -/
def resolvedUidExpiries (key : PgpKey) : List Int :=
  key.Identities.filterMap (fun id =>
    calculateExpiry key.PrimaryKey.CreationTime id.SelfSignature.KeyLifetimeSecs)

/-- `earliest`: minimum of a list of times; Go panics on the empty slice
(`none`).  The loop keeps the first of equal times. -/
def earliest (times : List Int) : Option Int :=
  match times with
  | [] => none
  | t :: rest => some (rest.foldl (fun earliestSoFar u =>
      if u < earliestSoFar then u else earliestSoFar) t)

/-- `getEarliestUidExpiry`: earliest identity expiry; `none` plays the role
of Go's `(false, nil)` (the `len > 0` guard makes the `earliest` panic
unreachable). -/
def getEarliestUidExpiry (key : PgpKey) : Option Int :=
  earliest (resolvedUidExpiries key)

/-- The filter of `getMostRecentEncryptionSubkey`: valid flags and at least
one encryption capability. -/
def eligibleSubkeys (key : PgpKey) : List Subkey :=
  key.Subkeys.filter (fun subkey =>
    subkey.Sig.FlagsValid && (subkey.Sig.FlagEncryptCommunications || subkey.Sig.FlagEncryptStorage))

/-- `getMostRecentEncryptionSubkey`: the Go source sorts the eligible
subkeys with `sort.Sort(sort.Reverse(ByCreated(...)))` and returns element
0, i.e. an eligible subkey of maximal `PublicKey.CreationTime`; `sort.Sort`
is unstable so a tie is broken arbitrarily, modelled as the first-listed
maximal subkey. -/
def getMostRecentEncryptionSubkey (key : PgpKey) : Option Subkey :=
  match eligibleSubkeys key with
  | [] => none
  | s :: rest => some (rest.foldl (fun best sk =>
      if best.PublicKey.CreationTime < sk.PublicKey.CreationTime then sk else best) s)

/-- `beginningOfMonth`: `y, m, _ := now.Date(); time.Date(y, m, 1, ...)`,
in UTC. -/
def beginningOfMonth (now : Int) : Int :=
  dateToUnix (dateOfUnix now).1 (dateOfUnix now).2.1 1

/-- `firstOfNextMonth`: `beginningOfMonth(beginningOfMonth(today).Add(fortyFiveDays))`. -/
def firstOfNextMonth (today : Int) : Int :=
  beginningOfMonth (beginningOfMonth today + fortyFiveDays)

/-- `nextExpiryTime`: `firstOfNextMonth(now).Add(thirtyDays)`. -/
def nextExpiryTime (now : Int) : Int := firstOfNextMonth now + thirtyDays

/-- `isExpiryTooLong`: `expiry.After(nextExpiryTime(now))`. -/
def isExpiryTooLong (expiry now : Int) : Bool := nextExpiryTime now < expiry

/-- `getEncryptionSubkeyWarnings`, with the implicit `time.Now()` made an
explicit parameter; `none` is a propagated panic. -/
def getEncryptionSubkeyWarnings (key : PgpKey) (now : Int) : Option (List KeyWarning) :=
  match getMostRecentEncryptionSubkey key with
  | none => some [{ Type' := WarningType.NoValidEncryptionSubkey }]
  | some encryptionSubkey =>
    let subkeyId := encryptionSubkey.PublicKey.KeyId
    match getSubkeyExpiry encryptionSubkey with
    | some expiry =>
      let nextRotation := calculateNextRotationTime expiry
      let rotationWarnings :=
        if isExpired expiry now then
          some [{ Type' := WarningType.NoValidEncryptionSubkey }]
        else if isOverdueForRotation nextRotation now then
          match getDaysUntilExpiry nextRotation now with
          | none => none
          | some d => some [{ Type' := WarningType.SubkeyOverdueForRotation,
                              SubkeyId := subkeyId, DaysUntilExpiry := d }]
        else if isDueForRotation nextRotation now then
          some [{ Type' := WarningType.SubkeyDueForRotation, SubkeyId := subkeyId }]
        else some []
      match rotationWarnings with
      | none => none
      | some ws =>
        some (ws ++ (if isExpiryTooLong expiry now then
          [{ Type' := WarningType.SubkeyLongExpiry, SubkeyId := subkeyId }] else []))
    | none => some [{ Type' := WarningType.SubkeyNoExpiry, SubkeyId := subkeyId }]

/-- `getPrimaryKeyWarnings`, with the implicit `time.Now()` made an explicit
parameter; `none` is a propagated panic. -/
def getPrimaryKeyWarnings (key : PgpKey) (now : Int) : Option (List KeyWarning) :=
  match getEarliestUidExpiry key with
  | some expiry =>
    let nextRotation := calculateNextRotationTime expiry
    let rotationWarnings :=
      if isExpired expiry now then
        match getDaysSinceExpiry expiry now with
        | none => none
        | some d => some [{ Type' := WarningType.PrimaryKeyExpired, DaysSinceExpiry := d }]
      else if isOverdueForRotation nextRotation now then
        match getDaysUntilExpiry expiry now with
        | none => none
        | some d => some [{ Type' := WarningType.PrimaryKeyOverdueForRotation,
                            DaysUntilExpiry := d }]
      else if isDueForRotation nextRotation now then
        some [{ Type' := WarningType.PrimaryKeyDueForRotation }]
      else some []
    match rotationWarnings with
    | none => none
    | some ws =>
      some (ws ++ (if isExpiryTooLong expiry now then
        [{ Type' := WarningType.PrimaryKeyLongExpiry }] else []))
  | none => some [{ Type' := WarningType.PrimaryKeyNoExpiry }]

/-- `GetKeyWarnings`: primary-key warnings followed by subkey warnings; a
panic in either aborts the whole call. -/
def GetKeyWarnings (key : PgpKey) (now : Int) : Option (List KeyWarning) :=
  match getPrimaryKeyWarnings key now, getEncryptionSubkeyWarnings key now with
  | some p, some s => some (p ++ s)
  | _, _ => none

/-! ## Statement helpers and concrete inputs -/

/-- Whether a warning is one of the three primary-key rotation states
(expired / overdue / due) of the Rotation Policy precedence. -/
def isPrimaryRotationWarning (w : KeyWarning) : Bool :=
  w.Type' == WarningType.PrimaryKeyExpired ||
  w.Type' == WarningType.PrimaryKeyOverdueForRotation ||
  w.Type' == WarningType.PrimaryKeyDueForRotation

/-- Whether a warning of the given kind occurs in a list. -/
def hasWarningOfType (ws : List KeyWarning) (t : WarningType) : Bool :=
  ws.any (fun w => w.Type' == t)

/-- Modelled from the spec's words (claim C3): "the first day (00:00 UTC) of
the first month starting at least 45 days after the beginning of the current
month, plus 30 days".  `beginningOfMonth` fixed points are exactly the month
starts; the first month start at or after an instant `t` is `t`'s own month
start when `t` is one, and otherwise the start of the following month
(reached by adding 32 days to the month start, which always lands in the
next month, and truncating). -/
def claimedLatestAcceptable (now : Int) : Int :=
  let target := beginningOfMonth now + fortyFiveDays
  let b := beginningOfMonth target
  (if b = target then target else beginningOfMonth (b + 32 * 86400)) + thirtyDays

/-- A binding signature with the given lifetime, valid flags and the
encrypt-communications capability. -/
def encSig (l : Option Nat) : Signature :=
  { KeyLifetimeSecs := l, FlagsValid := true,
    FlagEncryptCommunications := true, FlagEncryptStorage := false }

/-- A key with a single eligible encryption subkey created at 0 that expires
25 days later; at `now = 20 days` the subkey is not expired but overdue. -/
def overdueSubkeyKey : PgpKey :=
  { PrimaryKey := { KeyId := 1, CreationTime := 0 },
    Identities := [],
    Subkeys := [{ PublicKey := { KeyId := 2, CreationTime := 0 },
                  Sig := encSig (some (25 * 86400)) }] }

/-- A key with a single eligible encryption subkey created at 0 that expires
after one day; at `now = 10 days` the subkey is expired. -/
def expiredSubkeyKey : PgpKey :=
  { PrimaryKey := { KeyId := 1, CreationTime := 0 },
    Identities := [],
    Subkeys := [{ PublicKey := { KeyId := 7, CreationTime := 0 },
                  Sig := encSig (some 86400) }] }

/-- A key whose sole identity expires 40 days before `now = 41 days`. -/
def expired40Key : PgpKey :=
  { PrimaryKey := { KeyId := 3, CreationTime := 0 },
    Identities := [{ SelfSignature := encSig (some 86400) }],
    Subkeys := [] }

/-- A key with two identities expiring 5 and 100 days after creation. -/
def twoUidKey : PgpKey :=
  { PrimaryKey := { KeyId := 4, CreationTime := 0 },
    Identities := [{ SelfSignature := encSig (some (5 * 86400)) },
                   { SelfSignature := encSig (some (100 * 86400)) }],
    Subkeys := [] }

/-- A key with a single identity expiring 5 days after creation. -/
def oneUidKey : PgpKey :=
  { PrimaryKey := { KeyId := 5, CreationTime := 0 },
    Identities := [{ SelfSignature := encSig (some (5 * 86400)) }],
    Subkeys := [] }

/-- A key with no identities and no subkeys. -/
def emptyKey : PgpKey :=
  { PrimaryKey := { KeyId := 6, CreationTime := 0 }, Identities := [], Subkeys := [] }

/-- A key with two eligible encryption subkeys with different creation
times (0 and 86400) and one ineligible subkey. -/
def twoSubkeyKey : PgpKey :=
  { PrimaryKey := { KeyId := 8, CreationTime := 0 },
    Identities := [],
    Subkeys := [{ PublicKey := { KeyId := 9, CreationTime := 0 },
                  Sig := encSig (some (200 * 86400)) },
                { PublicKey := { KeyId := 10, CreationTime := 86400 },
                  Sig := encSig (some (200 * 86400)) },
                { PublicKey := { KeyId := 11, CreationTime := 999999999 },
                  Sig := { KeyLifetimeSecs := some 1, FlagsValid := false,
                           FlagEncryptCommunications := true, FlagEncryptStorage := true } }] }

/-- The key `twoSubkeyKey` with only its most recently created eligible
subkey. -/
def oneSubkeyKey : PgpKey :=
  { PrimaryKey := { KeyId := 12, CreationTime := 0 },
    Identities := [],
    Subkeys := [{ PublicKey := { KeyId := 10, CreationTime := 86400 },
                  Sig := encSig (some (200 * 86400)) }] }

/-! ## Correctness of the calendar embedding

The key fact needed about the calendar is that the month start computed by
`absDate` followed by `dateToUnix _ _ 1` lies at most 30 days before the
given day and never after it. -/

theorem dse_reconstruct (a b c e : Int) (hb0 : 0 ≤ b) (hb1 : b ≤ 3)
    (hc0 : 0 ≤ c) (hc1 : c ≤ 24) (he0 : 0 ≤ e) (he1 : e ≤ 3) :
    daysSinceEpoch (400 * a + 100 * b + 4 * c + e + absoluteZeroYear) =
      146097 * a + 36524 * b + 1461 * c + 365 * e := by
  simp only [daysSinceEpoch, absoluteZeroYear, daysPer400Years, daysPer100Years, daysPer4Years]
  omega

theorem month_table (day : Int) (h0 : 0 ≤ day) (h1 : day ≤ 364) :
    (day ≥ daysBefore (day / 31 + 1) →
      daysBefore (day / 31 + 1) ≤ day ∧ day ≤ daysBefore (day / 31 + 1) + 30 ∧
      (3 ≤ day / 31 + 1 + 1 ↔ 59 ≤ day)) ∧
    (¬ day ≥ daysBefore (day / 31 + 1) →
      daysBefore (day / 31) ≤ day ∧ day ≤ daysBefore (day / 31) + 30 ∧
      (3 ≤ day / 31 + 1 ↔ 59 ≤ day)) := by
  have hm0 : 0 ≤ day / 31 := by omega
  have hm1 : day / 31 ≤ 11 := by omega
  set m := day / 31 with hm
  interval_cases m <;> simp only [daysBefore] <;> norm_num <;> omega

set_option maxHeartbeats 4000000 in
theorem msd_le_aux (a b c e y4 : Int) (hb0 : 0 ≤ b) (hb1 : b ≤ 3)
    (hc0 : 0 ≤ c) (hc1 : c ≤ 24) (he0 : 0 ≤ e) (he1 : e ≤ 3)
    (hy0 : 0 ≤ y4) (hy1 : y4 ≤ 365)
    (hcap1 : y4 = 365 → e = 3) (hcap2 : y4 = 365 → c = 24 → b = 3) :
    monthStartDays (absDate (146097*a + 36524*b + 1461*c + 365*e + y4)).1
        (absDate (146097*a + 36524*b + 1461*c + 365*e + y4)).2.1
      ≤ 146097*a + 36524*b + 1461*c + 365*e + y4 ∧
    146097*a + 36524*b + 1461*c + 365*e + y4
      ≤ monthStartDays (absDate (146097*a + 36524*b + 1461*c + 365*e + y4)).1
          (absDate (146097*a + 36524*b + 1461*c + 365*e + y4)).2.1 + 30 := by
  have h400 : (146097*a + 36524*b + 1461*c + 365*e + y4) / 146097 = a := by omega
  have hr1 : 146097*a + 36524*b + 1461*c + 365*e + y4 - 146097*a
      = 36524*b + 1461*c + 365*e + y4 := by ring
  by_cases hB : y4 = 365 ∧ c = 24
  · -- last day of the 400-year cycle
    obtain ⟨hy, hc⟩ := hB
    have he : e = 3 := hcap1 hy
    have hb : b = 3 := hcap2 hy hc
    subst hy; subst hc; subst he; subst hb
    have hleap : isLeap (400 * a + 399 + absoluteZeroYear) = true := by
      simp only [isLeap, absoluteZeroYear, Bool.and_eq_true, beq_iff_eq, bne_iff_ne,
        Bool.or_eq_true]
      omega
    have habs : absDate (146097*a + 36524*3 + 1461*24 + 365*3 + 365)
        = (400 * a + 399 + absoluteZeroYear, 12, 31) := by
      have k2 : 146097*a + 36524*3 + 1461*24 + 365*3 + 365 - 146097*a = 146096 := by ring
      have l1 : (146096:Int) / 36524 = 4 := by decide
      have l2 : (4:Int) - 4 / 4 = 3 := by decide
      have l3 : (146096:Int) - 36524 * 3 = 36524 := by decide
      have l4 : (36524:Int) / 1461 = 24 := by decide
      have l5 : (36524:Int) - 1461 * 24 = 1460 := by decide
      have l6 : (1460:Int) / 365 = 4 := by decide
      have l7 : (1460:Int) - 365 * 3 = 365 := by decide
      have l8 : (364:Int) / 31 = 11 := by decide
      have yr : 400 * a + 100 * 3 + 4 * 24 + 3 = 400 * a + 399 := by ring
      simp only [absDate, daysPer400Years, daysPer100Years, daysPer4Years,
        h400, k2, l1, l2, l3, l4, l5, l6, l7, l8, yr]
      norm_num [hleap, daysBefore]
    rw [habs]
    simp only [monthStartDays]
    rw [show 400 * a + 399 + absoluteZeroYear
        = 400 * a + 100 * 3 + 4 * 24 + 3 + absoluteZeroYear from by ring]
    rw [dse_reconstruct a 3 24 3 (by omega) (by omega) (by omega) (by omega) (by omega)
      (by omega)]
    rw [show 400 * a + 100 * 3 + 4 * 24 + 3 + absoluteZeroYear
        = 400 * a + 399 + absoluteZeroYear from by ring]
    simp only [hleap]
    norm_num [daysBefore]
    omega
  · have h100 : (36524*b + 1461*c + 365*e + y4) / 36524 = b := by omega
    have hb4 : b / 4 = 0 := by omega
    have hr2 : 36524*b + 1461*c + 365*e + y4 - 36524*b = 1461*c + 365*e + y4 := by ring
    have h4 : (1461*c + 365*e + y4) / 1461 = c := by omega
    have hr3 : 1461*c + 365*e + y4 - 1461*c = 365*e + y4 := by ring
    have h365 : (365*e + y4)/365 - (365*e + y4)/365/4 = e := by omega
    have hr4 : 365*e + y4 - 365*e = y4 := by ring
    simp only [absDate, monthStartDays, daysPer400Years, daysPer100Years, daysPer4Years,
      h400, hr1, h100, hb4, hr2, h4, hr3, h365, hr4, sub_zero]
    have hAZ : absoluteZeroYear = -292277022399 := rfl
    have hLb : isLeap (400 * a + 100 * b + 4 * c + e + absoluteZeroYear) = true
        ↔ ((400 * a + 100 * b + 4 * c + e + absoluteZeroYear) % 4 = 0 ∧
           ((400 * a + 100 * b + 4 * c + e + absoluteZeroYear) % 100 ≠ 0 ∨
            (400 * a + 100 * b + 4 * c + e + absoluteZeroYear) % 400 = 0)) := by
      simp [isLeap]
    by_cases hL : ((400 * a + 100 * b + 4 * c + e + absoluteZeroYear) % 4 = 0 ∧
        ((400 * a + 100 * b + 4 * c + e + absoluteZeroYear) % 100 ≠ 0 ∨
         (400 * a + 100 * b + 4 * c + e + absoluteZeroYear) % 400 = 0))
    · have hLt : isLeap (400 * a + 100 * b + 4 * c + e + absoluteZeroYear) = true := hLb.mpr hL
      simp only [hLt, eq_self_iff_true, true_and]
      by_cases h59 : y4 = 59
      · simp only [if_pos h59]
        rw [dse_reconstruct a b c e hb0 hb1 hc0 hc1 he0 he1]
        have db1 : daysBefore (2 - 1) = 31 := by decide
        split_ifs <;> omega
      · simp only [if_neg h59]
        by_cases h60 : y4 > 59
        · simp only [if_pos h60]
          obtain ⟨mtT, mtF⟩ := month_table (y4 - 1) (by omega) (by omega)
          rw [dse_reconstruct a b c e hb0 hb1 hc0 hc1 he0 he1]
          simp only [add_sub_cancel_right]
          split_ifs
          all_goals try simp only [hLt, eq_self_iff_true, true_and] at *
          all_goals clear hLb hL h400 h100 h4 h365 hB hcap1 hcap2 hAZ hb4 hr1 hr2 hr3 hr4
          all_goals omega
        · simp only [if_neg h60]
          obtain ⟨mtT, mtF⟩ := month_table y4 (by omega) (by omega)
          rw [dse_reconstruct a b c e hb0 hb1 hc0 hc1 he0 he1]
          simp only [add_sub_cancel_right]
          split_ifs
          all_goals try simp only [hLt, eq_self_iff_true, true_and] at *
          all_goals clear hLb hL h400 h100 h4 h365 hB hcap1 hcap2 hAZ hb4 hr1 hr2 hr3 hr4
          all_goals omega
    · have hLf : isLeap (400 * a + 100 * b + 4 * c + e + absoluteZeroYear) = false := by
        rw [← Bool.not_eq_true]
        exact fun h => hL (hLb.mp h)
      simp only [hLf, Bool.false_eq_true, false_and, if_false]
      obtain ⟨mtT, mtF⟩ := month_table y4 (by omega) (by omega)
      rw [dse_reconstruct a b c e hb0 hb1 hc0 hc1 he0 he1]
      simp only [add_sub_cancel_right]
      split_ifs
      all_goals clear hLb h400 h100 h4 h365 hB hcap1 hcap2 hb4 hr1 hr2 hr3 hr4
      all_goals omega

theorem monthStartDays_le (d : Int) :
    monthStartDays (absDate d).1 (absDate d).2.1 ≤ d ∧
    d ≤ monthStartDays (absDate d).1 (absDate d).2.1 + 30 := by
  obtain ⟨a, b, c, e, y4, hd, hb0, hb1, hc0, hc1, he0, he1, hy0, hy1, hcap1, hcap2⟩ :
      ∃ a b c e y4 : Int, d = 146097*a + 36524*b + 1461*c + 365*e + y4 ∧ 0 ≤ b ∧ b ≤ 3 ∧
        0 ≤ c ∧ c ≤ 24 ∧ 0 ≤ e ∧ e ≤ 3 ∧ 0 ≤ y4 ∧ y4 ≤ 365 ∧
        (y4 = 365 → e = 3) ∧ (y4 = 365 → c = 24 → b = 3) := by
    set r := d % 146097 with hr
    set b0 := r / 36524 with hb0d
    set b := b0 - b0 / 4 with hbd
    set r2 := r - 36524 * b with hr2
    set c := r2 / 1461 with hcd
    set r3 := r2 - 1461 * c with hr3
    set e0 := r3 / 365 with he0d
    set e := e0 - e0 / 4 with hed
    set y4 := r3 - 365 * e with hy4
    exact ⟨d / 146097, b, c, e, y4, by omega, by omega, by omega, by omega, by omega,
      by omega, by omega, by omega, by omega, by omega, by omega⟩
  rw [hd]
  exact msd_le_aux a b c e y4 hb0 hb1 hc0 hc1 he0 he1 hy0 hy1 hcap1 hcap2

/-- In the month estimation of `absDate`, whenever the estimated month is
bumped (`day ≥ daysBefore (day/31 + 1)`), the estimate is at most 10, so the
bumped month index stays within `0..11`. -/
theorem month_table2 (day : Int) (h0 : 0 ≤ day) (h1 : day ≤ 364)
    (hge : day ≥ daysBefore (day / 31 + 1)) : day / 31 ≤ 10 := by
  have hm0 : 0 ≤ day / 31 := by omega
  have hm1 : day / 31 ≤ 11 := by omega
  set m := day / 31 with hm
  interval_cases m <;> simp only [daysBefore] at hge <;> omega

/-- Evaluation of `absDate` on a canonically decomposed day number with day
of year at most 364 (so that no cap of the cascade fires): the cascade
recovers the decomposition's year and hands the day of year to the month
extraction. -/
theorem absDate_eval (a b c e y4 : Int) (hb0 : 0 ≤ b) (hb1 : b ≤ 3)
    (hc0 : 0 ≤ c) (hc1 : c ≤ 24) (he0 : 0 ≤ e) (he1 : e ≤ 3)
    (hy0 : 0 ≤ y4) (hy1 : y4 ≤ 364) :
    absDate (146097*a + 36524*b + 1461*c + 365*e + y4)
      = yearDayToDate (400*a + 100*b + 4*c + e + absoluteZeroYear) y4 := by
  have h400 : (146097*a + 36524*b + 1461*c + 365*e + y4) / 146097 = a := by omega
  have hr1 : 146097*a + 36524*b + 1461*c + 365*e + y4 - 146097*a
      = 36524*b + 1461*c + 365*e + y4 := by ring
  have h100 : (36524*b + 1461*c + 365*e + y4) / 36524 = b := by omega
  have hb4 : b / 4 = 0 := by omega
  have hr2 : 36524*b + 1461*c + 365*e + y4 - 36524*b = 1461*c + 365*e + y4 := by ring
  have h4 : (1461*c + 365*e + y4) / 1461 = c := by omega
  have hr3 : 1461*c + 365*e + y4 - 1461*c = 365*e + y4 := by ring
  have h365 : (365*e + y4)/365 - (365*e + y4)/365/4 = e := by omega
  have hr4 : 365*e + y4 - 365*e = y4 := by ring
  simp only [absDate, yearDayToDate, daysPer400Years, daysPer100Years, daysPer4Years,
    h400, hr1, h100, hb4, hr2, h4, hr3, h365, hr4, sub_zero]

set_option maxHeartbeats 2000000 in
/-- The month component of `absDate` on a canonically decomposed day number
is always in `1..12`. -/
theorem month_range_aux (a b c e y4 : Int) (hb0 : 0 ≤ b) (hb1 : b ≤ 3)
    (hc0 : 0 ≤ c) (hc1 : c ≤ 24) (he0 : 0 ≤ e) (he1 : e ≤ 3)
    (hy0 : 0 ≤ y4) (hy1 : y4 ≤ 365)
    (hcap1 : y4 = 365 → e = 3) (hcap2 : y4 = 365 → c = 24 → b = 3) :
    1 ≤ (absDate (146097*a + 36524*b + 1461*c + 365*e + y4)).2.1 ∧
    (absDate (146097*a + 36524*b + 1461*c + 365*e + y4)).2.1 ≤ 12 := by
  by_cases hB : y4 = 365 ∧ c = 24
  · obtain ⟨hy, hc⟩ := hB
    have he : e = 3 := hcap1 hy
    have hb : b = 3 := hcap2 hy hc
    subst hy; subst hc; subst he; subst hb
    have hleap : isLeap (400 * a + 399 + absoluteZeroYear) = true := by
      simp only [isLeap, absoluteZeroYear, Bool.and_eq_true, beq_iff_eq, bne_iff_ne,
        Bool.or_eq_true]
      omega
    have h400 : (146097*a + 36524*3 + 1461*24 + 365*3 + 365) / 146097 = a := by omega
    have habs : absDate (146097*a + 36524*3 + 1461*24 + 365*3 + 365)
        = (400 * a + 399 + absoluteZeroYear, 12, 31) := by
      have k2 : 146097*a + 36524*3 + 1461*24 + 365*3 + 365 - 146097*a = 146096 := by ring
      have l1 : (146096:Int) / 36524 = 4 := by decide
      have l2 : (4:Int) - 4 / 4 = 3 := by decide
      have l3 : (146096:Int) - 36524 * 3 = 36524 := by decide
      have l4 : (36524:Int) / 1461 = 24 := by decide
      have l5 : (36524:Int) - 1461 * 24 = 1460 := by decide
      have l6 : (1460:Int) / 365 = 4 := by decide
      have l7 : (1460:Int) - 365 * 3 = 365 := by decide
      have l8 : (364:Int) / 31 = 11 := by decide
      have yr : 400 * a + 100 * 3 + 4 * 24 + 3 = 400 * a + 399 := by ring
      simp only [absDate, daysPer400Years, daysPer100Years, daysPer4Years,
        h400, k2, l1, l2, l3, l4, l5, l6, l7, l8, yr]
      norm_num [hleap, daysBefore]
    rw [habs]
    norm_num
  · have hAZ : absoluteZeroYear = -292277022399 := rfl
    have h400 : (146097*a + 36524*b + 1461*c + 365*e + y4) / 146097 = a := by omega
    have hr1 : 146097*a + 36524*b + 1461*c + 365*e + y4 - 146097*a
        = 36524*b + 1461*c + 365*e + y4 := by ring
    have h100 : (36524*b + 1461*c + 365*e + y4) / 36524 = b := by omega
    have hb4 : b / 4 = 0 := by omega
    have hr2 : 36524*b + 1461*c + 365*e + y4 - 36524*b = 1461*c + 365*e + y4 := by ring
    have h4 : (1461*c + 365*e + y4) / 1461 = c := by omega
    have hr3 : 1461*c + 365*e + y4 - 1461*c = 365*e + y4 := by ring
    have h365 : (365*e + y4)/365 - (365*e + y4)/365/4 = e := by omega
    have hr4 : 365*e + y4 - 365*e = y4 := by ring
    simp only [absDate, daysPer400Years, daysPer100Years, daysPer4Years,
      h400, hr1, h100, hb4, hr2, h4, hr3, h365, hr4, sub_zero]
    split_ifs with hC1 hC2 hge hge'
    · exact ⟨by norm_num, by norm_num⟩
    · obtain ⟨hLt, h59⟩ := hC2
      have ht := month_table2 (y4 - 1) (by omega) (by omega) hge
      refine ⟨?_, ?_⟩ <;> simp only [Prod.fst, Prod.snd] <;> omega
    · obtain ⟨hLt, h59⟩ := hC2
      refine ⟨?_, ?_⟩ <;> simp only [Prod.fst, Prod.snd] <;> omega
    · have hy364 : y4 ≤ 364 := by
        by_contra hcon
        have hy365 : y4 = 365 := by omega
        have he3 : e = 3 := hcap1 hy365
        have hLt : isLeap (400 * a + 100 * b + 4 * c + e + absoluteZeroYear) = true := by
          simp only [isLeap, Bool.and_eq_true, beq_iff_eq, bne_iff_ne, Bool.or_eq_true]
          constructor
          · omega
          · by_cases hc' : c = 24
            · exact absurd ⟨hy365, hc'⟩ hB
            · left; omega
        exact hC2 ⟨hLt, by omega⟩
      have ht := month_table2 y4 (by omega) hy364 hge'
      refine ⟨?_, ?_⟩ <;> simp only [Prod.fst, Prod.snd] <;> omega
    · refine ⟨?_, ?_⟩ <;> simp only [Prod.fst, Prod.snd] <;> omega

/-- The month component of `absDate` is always in `1..12`. -/
theorem absDate_month_range (d : Int) :
    1 ≤ (absDate d).2.1 ∧ (absDate d).2.1 ≤ 12 := by
  obtain ⟨a, b, c, e, y4, hd, hb0, hb1, hc0, hc1, he0, he1, hy0, hy1, hcap1, hcap2⟩ :
      ∃ a b c e y4 : Int, d = 146097*a + 36524*b + 1461*c + 365*e + y4 ∧ 0 ≤ b ∧ b ≤ 3 ∧
        0 ≤ c ∧ c ≤ 24 ∧ 0 ≤ e ∧ e ≤ 3 ∧ 0 ≤ y4 ∧ y4 ≤ 365 ∧
        (y4 = 365 → e = 3) ∧ (y4 = 365 → c = 24 → b = 3) := by
    set r := d % 146097 with hr
    set b0 := r / 36524 with hb0d
    set b := b0 - b0 / 4 with hbd
    set r2 := r - 36524 * b with hr2
    set c := r2 / 1461 with hcd
    set r3 := r2 - 1461 * c with hr3
    set e0 := r3 / 365 with he0d
    set e := e0 - e0 / 4 with hed
    set y4 := r3 - 365 * e with hy4
    exact ⟨d / 146097, b, c, e, y4, by omega, by omega, by omega, by omega, by omega,
      by omega, by omega, by omega, by omega, by omega, by omega⟩
  rw [hd]
  exact month_range_aux a b c e y4 hb0 hb1 hc0 hc1 he0 he1 hy0 hy1 hcap1 hcap2

set_option maxHeartbeats 2000000 in
/-- Starting from the first day of any month `(y, m)` and adding 45 days
always lands inside the immediately following month: `absDate` of
`monthStartDays y m + 45` has year and month exactly the successor month
of `(y, m)` (January of `y + 1` after December), because every month is
28 to 31 days long. -/
theorem msd45_aux (a b c e m : Int) (hb0 : 0 ≤ b) (hb1 : b ≤ 3)
    (hc0 : 0 ≤ c) (hc1 : c ≤ 24) (he0 : 0 ≤ e) (he1 : e ≤ 3)
    (hm1 : 1 ≤ m) (hm2 : m ≤ 12) :
    (absDate (monthStartDays (400*a + 100*b + 4*c + e + absoluteZeroYear) m + 45)).1
      = (if m = 12 then 400*a + 100*b + 4*c + e + absoluteZeroYear + 1
         else 400*a + 100*b + 4*c + e + absoluteZeroYear) ∧
    (absDate (monthStartDays (400*a + 100*b + 4*c + e + absoluteZeroYear) m + 45)).2.1
      = (if m = 12 then 1 else m + 1) := by
  interval_cases m
  · have harg : monthStartDays (400*a + 100*b + 4*c + e + absoluteZeroYear) 1 + 45
        = 146097*a + 36524*b + 1461*c + 365*e + 45 := by
      simp only [monthStartDays, dse_reconstruct a b c e hb0 hb1 hc0 hc1 he0 he1]
      norm_num [daysBefore]
    rw [harg, absDate_eval a b c e 45 hb0 hb1 hc0 hc1 he0 he1 (by norm_num) (by norm_num)]
    simp only [yearDayToDate]
    norm_num [daysBefore]
  · have harg : monthStartDays (400*a + 100*b + 4*c + e + absoluteZeroYear) 2 + 45
        = 146097*a + 36524*b + 1461*c + 365*e + 76 := by
      simp only [monthStartDays, dse_reconstruct a b c e hb0 hb1 hc0 hc1 he0 he1]
      norm_num [daysBefore]
      all_goals omega
    rw [harg, absDate_eval a b c e 76 hb0 hb1 hc0 hc1 he0 he1 (by norm_num) (by norm_num)]
    by_cases hL : isLeap (400*a + 100*b + 4*c + e + absoluteZeroYear) = true
    · simp only [yearDayToDate, hL]
      norm_num [daysBefore]
    · have hLf : isLeap (400*a + 100*b + 4*c + e + absoluteZeroYear) = false := by
        rw [← Bool.not_eq_true]; exact hL
      simp only [yearDayToDate, hLf]
      norm_num [daysBefore]
  · by_cases hL : isLeap (400*a + 100*b + 4*c + e + absoluteZeroYear) = true
    · have harg : monthStartDays (400*a + 100*b + 4*c + e + absoluteZeroYear) 3 + 45
          = 146097*a + 36524*b + 1461*c + 365*e + 105 := by
        simp only [monthStartDays, dse_reconstruct a b c e hb0 hb1 hc0 hc1 he0 he1, hL]
        norm_num [daysBefore]
        all_goals omega
      rw [harg, absDate_eval a b c e 105 hb0 hb1 hc0 hc1 he0 he1 (by norm_num) (by norm_num)]
      simp only [yearDayToDate, hL]
      norm_num [daysBefore]
    · have hLf : isLeap (400*a + 100*b + 4*c + e + absoluteZeroYear) = false := by
        rw [← Bool.not_eq_true]; exact hL
      have harg : monthStartDays (400*a + 100*b + 4*c + e + absoluteZeroYear) 3 + 45
          = 146097*a + 36524*b + 1461*c + 365*e + 104 := by
        simp only [monthStartDays, dse_reconstruct a b c e hb0 hb1 hc0 hc1 he0 he1, hLf]
        norm_num [daysBefore]
        all_goals omega
      rw [harg, absDate_eval a b c e 104 hb0 hb1 hc0 hc1 he0 he1 (by norm_num) (by norm_num)]
      simp only [yearDayToDate, hLf]
      norm_num [daysBefore]
  · by_cases hL : isLeap (400*a + 100*b + 4*c + e + absoluteZeroYear) = true
    · have harg : monthStartDays (400*a + 100*b + 4*c + e + absoluteZeroYear) 4 + 45
          = 146097*a + 36524*b + 1461*c + 365*e + 136 := by
        simp only [monthStartDays, dse_reconstruct a b c e hb0 hb1 hc0 hc1 he0 he1, hL]
        norm_num [daysBefore]
        all_goals omega
      rw [harg, absDate_eval a b c e 136 hb0 hb1 hc0 hc1 he0 he1 (by norm_num) (by norm_num)]
      simp only [yearDayToDate, hL]
      norm_num [daysBefore]
    · have hLf : isLeap (400*a + 100*b + 4*c + e + absoluteZeroYear) = false := by
        rw [← Bool.not_eq_true]; exact hL
      have harg : monthStartDays (400*a + 100*b + 4*c + e + absoluteZeroYear) 4 + 45
          = 146097*a + 36524*b + 1461*c + 365*e + 135 := by
        simp only [monthStartDays, dse_reconstruct a b c e hb0 hb1 hc0 hc1 he0 he1, hLf]
        norm_num [daysBefore]
        all_goals omega
      rw [harg, absDate_eval a b c e 135 hb0 hb1 hc0 hc1 he0 he1 (by norm_num) (by norm_num)]
      simp only [yearDayToDate, hLf]
      norm_num [daysBefore]
  · by_cases hL : isLeap (400*a + 100*b + 4*c + e + absoluteZeroYear) = true
    · have harg : monthStartDays (400*a + 100*b + 4*c + e + absoluteZeroYear) 5 + 45
          = 146097*a + 36524*b + 1461*c + 365*e + 166 := by
        simp only [monthStartDays, dse_reconstruct a b c e hb0 hb1 hc0 hc1 he0 he1, hL]
        norm_num [daysBefore]
        all_goals omega
      rw [harg, absDate_eval a b c e 166 hb0 hb1 hc0 hc1 he0 he1 (by norm_num) (by norm_num)]
      simp only [yearDayToDate, hL]
      norm_num [daysBefore]
    · have hLf : isLeap (400*a + 100*b + 4*c + e + absoluteZeroYear) = false := by
        rw [← Bool.not_eq_true]; exact hL
      have harg : monthStartDays (400*a + 100*b + 4*c + e + absoluteZeroYear) 5 + 45
          = 146097*a + 36524*b + 1461*c + 365*e + 165 := by
        simp only [monthStartDays, dse_reconstruct a b c e hb0 hb1 hc0 hc1 he0 he1, hLf]
        norm_num [daysBefore]
        all_goals omega
      rw [harg, absDate_eval a b c e 165 hb0 hb1 hc0 hc1 he0 he1 (by norm_num) (by norm_num)]
      simp only [yearDayToDate, hLf]
      norm_num [daysBefore]
  · by_cases hL : isLeap (400*a + 100*b + 4*c + e + absoluteZeroYear) = true
    · have harg : monthStartDays (400*a + 100*b + 4*c + e + absoluteZeroYear) 6 + 45
          = 146097*a + 36524*b + 1461*c + 365*e + 197 := by
        simp only [monthStartDays, dse_reconstruct a b c e hb0 hb1 hc0 hc1 he0 he1, hL]
        norm_num [daysBefore]
        all_goals omega
      rw [harg, absDate_eval a b c e 197 hb0 hb1 hc0 hc1 he0 he1 (by norm_num) (by norm_num)]
      simp only [yearDayToDate, hL]
      norm_num [daysBefore]
    · have hLf : isLeap (400*a + 100*b + 4*c + e + absoluteZeroYear) = false := by
        rw [← Bool.not_eq_true]; exact hL
      have harg : monthStartDays (400*a + 100*b + 4*c + e + absoluteZeroYear) 6 + 45
          = 146097*a + 36524*b + 1461*c + 365*e + 196 := by
        simp only [monthStartDays, dse_reconstruct a b c e hb0 hb1 hc0 hc1 he0 he1, hLf]
        norm_num [daysBefore]
        all_goals omega
      rw [harg, absDate_eval a b c e 196 hb0 hb1 hc0 hc1 he0 he1 (by norm_num) (by norm_num)]
      simp only [yearDayToDate, hLf]
      norm_num [daysBefore]
  · by_cases hL : isLeap (400*a + 100*b + 4*c + e + absoluteZeroYear) = true
    · have harg : monthStartDays (400*a + 100*b + 4*c + e + absoluteZeroYear) 7 + 45
          = 146097*a + 36524*b + 1461*c + 365*e + 227 := by
        simp only [monthStartDays, dse_reconstruct a b c e hb0 hb1 hc0 hc1 he0 he1, hL]
        norm_num [daysBefore]
        all_goals omega
      rw [harg, absDate_eval a b c e 227 hb0 hb1 hc0 hc1 he0 he1 (by norm_num) (by norm_num)]
      simp only [yearDayToDate, hL]
      norm_num [daysBefore]
    · have hLf : isLeap (400*a + 100*b + 4*c + e + absoluteZeroYear) = false := by
        rw [← Bool.not_eq_true]; exact hL
      have harg : monthStartDays (400*a + 100*b + 4*c + e + absoluteZeroYear) 7 + 45
          = 146097*a + 36524*b + 1461*c + 365*e + 226 := by
        simp only [monthStartDays, dse_reconstruct a b c e hb0 hb1 hc0 hc1 he0 he1, hLf]
        norm_num [daysBefore]
        all_goals omega
      rw [harg, absDate_eval a b c e 226 hb0 hb1 hc0 hc1 he0 he1 (by norm_num) (by norm_num)]
      simp only [yearDayToDate, hLf]
      norm_num [daysBefore]
  · by_cases hL : isLeap (400*a + 100*b + 4*c + e + absoluteZeroYear) = true
    · have harg : monthStartDays (400*a + 100*b + 4*c + e + absoluteZeroYear) 8 + 45
          = 146097*a + 36524*b + 1461*c + 365*e + 258 := by
        simp only [monthStartDays, dse_reconstruct a b c e hb0 hb1 hc0 hc1 he0 he1, hL]
        norm_num [daysBefore]
        all_goals omega
      rw [harg, absDate_eval a b c e 258 hb0 hb1 hc0 hc1 he0 he1 (by norm_num) (by norm_num)]
      simp only [yearDayToDate, hL]
      norm_num [daysBefore]
    · have hLf : isLeap (400*a + 100*b + 4*c + e + absoluteZeroYear) = false := by
        rw [← Bool.not_eq_true]; exact hL
      have harg : monthStartDays (400*a + 100*b + 4*c + e + absoluteZeroYear) 8 + 45
          = 146097*a + 36524*b + 1461*c + 365*e + 257 := by
        simp only [monthStartDays, dse_reconstruct a b c e hb0 hb1 hc0 hc1 he0 he1, hLf]
        norm_num [daysBefore]
        all_goals omega
      rw [harg, absDate_eval a b c e 257 hb0 hb1 hc0 hc1 he0 he1 (by norm_num) (by norm_num)]
      simp only [yearDayToDate, hLf]
      norm_num [daysBefore]
  · by_cases hL : isLeap (400*a + 100*b + 4*c + e + absoluteZeroYear) = true
    · have harg : monthStartDays (400*a + 100*b + 4*c + e + absoluteZeroYear) 9 + 45
          = 146097*a + 36524*b + 1461*c + 365*e + 289 := by
        simp only [monthStartDays, dse_reconstruct a b c e hb0 hb1 hc0 hc1 he0 he1, hL]
        norm_num [daysBefore]
        all_goals omega
      rw [harg, absDate_eval a b c e 289 hb0 hb1 hc0 hc1 he0 he1 (by norm_num) (by norm_num)]
      simp only [yearDayToDate, hL]
      norm_num [daysBefore]
    · have hLf : isLeap (400*a + 100*b + 4*c + e + absoluteZeroYear) = false := by
        rw [← Bool.not_eq_true]; exact hL
      have harg : monthStartDays (400*a + 100*b + 4*c + e + absoluteZeroYear) 9 + 45
          = 146097*a + 36524*b + 1461*c + 365*e + 288 := by
        simp only [monthStartDays, dse_reconstruct a b c e hb0 hb1 hc0 hc1 he0 he1, hLf]
        norm_num [daysBefore]
        all_goals omega
      rw [harg, absDate_eval a b c e 288 hb0 hb1 hc0 hc1 he0 he1 (by norm_num) (by norm_num)]
      simp only [yearDayToDate, hLf]
      norm_num [daysBefore]
  · by_cases hL : isLeap (400*a + 100*b + 4*c + e + absoluteZeroYear) = true
    · have harg : monthStartDays (400*a + 100*b + 4*c + e + absoluteZeroYear) 10 + 45
          = 146097*a + 36524*b + 1461*c + 365*e + 319 := by
        simp only [monthStartDays, dse_reconstruct a b c e hb0 hb1 hc0 hc1 he0 he1, hL]
        norm_num [daysBefore]
        all_goals omega
      rw [harg, absDate_eval a b c e 319 hb0 hb1 hc0 hc1 he0 he1 (by norm_num) (by norm_num)]
      simp only [yearDayToDate, hL]
      norm_num [daysBefore]
    · have hLf : isLeap (400*a + 100*b + 4*c + e + absoluteZeroYear) = false := by
        rw [← Bool.not_eq_true]; exact hL
      have harg : monthStartDays (400*a + 100*b + 4*c + e + absoluteZeroYear) 10 + 45
          = 146097*a + 36524*b + 1461*c + 365*e + 318 := by
        simp only [monthStartDays, dse_reconstruct a b c e hb0 hb1 hc0 hc1 he0 he1, hLf]
        norm_num [daysBefore]
        all_goals omega
      rw [harg, absDate_eval a b c e 318 hb0 hb1 hc0 hc1 he0 he1 (by norm_num) (by norm_num)]
      simp only [yearDayToDate, hLf]
      norm_num [daysBefore]
  · by_cases hL : isLeap (400*a + 100*b + 4*c + e + absoluteZeroYear) = true
    · have harg : monthStartDays (400*a + 100*b + 4*c + e + absoluteZeroYear) 11 + 45
          = 146097*a + 36524*b + 1461*c + 365*e + 350 := by
        simp only [monthStartDays, dse_reconstruct a b c e hb0 hb1 hc0 hc1 he0 he1, hL]
        norm_num [daysBefore]
        all_goals omega
      rw [harg, absDate_eval a b c e 350 hb0 hb1 hc0 hc1 he0 he1 (by norm_num) (by norm_num)]
      simp only [yearDayToDate, hL]
      norm_num [daysBefore]
    · have hLf : isLeap (400*a + 100*b + 4*c + e + absoluteZeroYear) = false := by
        rw [← Bool.not_eq_true]; exact hL
      have harg : monthStartDays (400*a + 100*b + 4*c + e + absoluteZeroYear) 11 + 45
          = 146097*a + 36524*b + 1461*c + 365*e + 349 := by
        simp only [monthStartDays, dse_reconstruct a b c e hb0 hb1 hc0 hc1 he0 he1, hLf]
        norm_num [daysBefore]
        all_goals omega
      rw [harg, absDate_eval a b c e 349 hb0 hb1 hc0 hc1 he0 he1 (by norm_num) (by norm_num)]
      simp only [yearDayToDate, hLf]
      norm_num [daysBefore]
  · have hAZ : absoluteZeroYear = -292277022399 := rfl
    by_cases hL : isLeap (400*a + 100*b + 4*c + e + absoluteZeroYear) = true
    · have hLp : (400*a + 100*b + 4*c + e + absoluteZeroYear) % 4 = 0 ∧
          ((400*a + 100*b + 4*c + e + absoluteZeroYear) % 100 ≠ 0 ∨
           (400*a + 100*b + 4*c + e + absoluteZeroYear) % 400 = 0) := by
        simpa [isLeap] using hL
      have he3 : e = 3 := by omega
      by_cases hc24 : c = 24
      · have hb3 : b = 3 := by omega
        have harg : monthStartDays (400*a + 100*b + 4*c + e + absoluteZeroYear) 12 + 45
            = 146097*(a+1) + 36524*0 + 1461*0 + 365*0 + 14 := by
          simp only [monthStartDays, dse_reconstruct a b c e hb0 hb1 hc0 hc1 he0 he1, hL]
          norm_num [daysBefore]
          all_goals omega
        rw [harg, absDate_eval (a+1) 0 0 0 14 (by norm_num) (by norm_num) (by norm_num)
          (by norm_num) (by norm_num) (by norm_num) (by norm_num) (by norm_num)]
        simp only [yearDayToDate]
        norm_num [daysBefore]
        all_goals omega
      · have harg : monthStartDays (400*a + 100*b + 4*c + e + absoluteZeroYear) 12 + 45
            = 146097*a + 36524*b + 1461*(c+1) + 365*0 + 14 := by
          simp only [monthStartDays, dse_reconstruct a b c e hb0 hb1 hc0 hc1 he0 he1, hL]
          norm_num [daysBefore]
          all_goals omega
        rw [harg, absDate_eval a b (c+1) 0 14 hb0 hb1 (by omega) (by omega) (by norm_num)
          (by norm_num) (by norm_num) (by norm_num)]
        simp only [yearDayToDate]
        norm_num [daysBefore]
        all_goals omega
    · have hLp : ¬ ((400*a + 100*b + 4*c + e + absoluteZeroYear) % 4 = 0 ∧
          ((400*a + 100*b + 4*c + e + absoluteZeroYear) % 100 ≠ 0 ∨
           (400*a + 100*b + 4*c + e + absoluteZeroYear) % 400 = 0)) := by
        simpa [isLeap] using hL
      have hLf : isLeap (400*a + 100*b + 4*c + e + absoluteZeroYear) = false := by
        rw [← Bool.not_eq_true]; exact hL
      by_cases he2 : e ≤ 2
      · have harg : monthStartDays (400*a + 100*b + 4*c + e + absoluteZeroYear) 12 + 45
            = 146097*a + 36524*b + 1461*c + 365*(e+1) + 14 := by
          simp only [monthStartDays, dse_reconstruct a b c e hb0 hb1 hc0 hc1 he0 he1, hLf]
          norm_num [daysBefore]
          all_goals omega
        rw [harg, absDate_eval a b c (e+1) 14 hb0 hb1 hc0 hc1 (by omega) (by omega)
          (by norm_num) (by norm_num)]
        simp only [yearDayToDate]
        norm_num [daysBefore]
        all_goals omega
      · have he3 : e = 3 := by omega
        have hc24 : c = 24 := by omega
        have hb2 : b ≤ 2 := by omega
        have harg : monthStartDays (400*a + 100*b + 4*c + e + absoluteZeroYear) 12 + 45
            = 146097*a + 36524*(b+1) + 1461*0 + 365*0 + 14 := by
          simp only [monthStartDays, dse_reconstruct a b c e hb0 hb1 hc0 hc1 he0 he1, hLf]
          norm_num [daysBefore]
          all_goals omega
        rw [harg, absDate_eval a (b+1) 0 0 14 (by omega) (by omega) (by norm_num)
          (by norm_num) (by norm_num) (by norm_num) (by norm_num) (by norm_num)]
        simp only [yearDayToDate]
        norm_num [daysBefore]
        all_goals omega

/-- `firstOfNextMonth` is exactly the first day (00:00 UTC) of the month
immediately after the month containing `now` (January 1 of the next year
when `now` is in December). -/
theorem firstOfNextMonth_eq (now : Int) :
    firstOfNextMonth now =
      dateToUnix
        (if (dateOfUnix now).2.1 = 12 then (dateOfUnix now).1 + 1 else (dateOfUnix now).1)
        (if (dateOfUnix now).2.1 = 12 then 1 else (dateOfUnix now).2.1 + 1) 1 := by
  obtain ⟨hm1, hm12⟩ := absDate_month_range (now / 86400 + unixEpochDays)
  have hDm : (absDate (now / 86400 + unixEpochDays)).2.1 = (dateOfUnix now).2.1 := rfl
  rw [hDm] at hm1 hm12
  obtain ⟨A, B, C, E, hyeq, hB0, hB1, hC0, hC1, hE0, hE1⟩ :
      ∃ A B C E : Int, (dateOfUnix now).1 = 400*A + 100*B + 4*C + E + absoluteZeroYear ∧
        0 ≤ B ∧ B ≤ 3 ∧ 0 ≤ C ∧ C ≤ 24 ∧ 0 ≤ E ∧ E ≤ 3 := by
    refine ⟨((dateOfUnix now).1 - absoluteZeroYear) / 400,
      ((dateOfUnix now).1 - absoluteZeroYear) % 400 / 100,
      ((dateOfUnix now).1 - absoluteZeroYear) % 400 % 100 / 4,
      ((dateOfUnix now).1 - absoluteZeroYear) % 400 % 100 % 4,
      ?_, ?_, ?_, ?_, ?_, ?_, ?_⟩ <;> omega
  have hkey := msd45_aux A B C E (dateOfUnix now).2.1 hB0 hB1 hC0 hC1 hE0 hE1 hm1 hm12
  rw [← hyeq] at hkey
  have hbom : beginningOfMonth now
      = 86400 * (monthStartDays (dateOfUnix now).1 (dateOfUnix now).2.1 - unixEpochDays) := by
    simp only [beginningOfMonth, dateToUnix, monthStartDays]
    ring
  have harg : (beginningOfMonth now + fortyFiveDays) / 86400 + unixEpochDays
      = monthStartDays (dateOfUnix now).1 (dateOfUnix now).2.1 + 45 := by
    rw [hbom]
    simp only [fortyFiveDays]
    omega
  have hded : dateOfUnix (beginningOfMonth now + fortyFiveDays)
      = absDate (monthStartDays (dateOfUnix now).1 (dateOfUnix now).2.1 + 45) := by
    rw [show dateOfUnix (beginningOfMonth now + fortyFiveDays)
        = absDate ((beginningOfMonth now + fortyFiveDays) / 86400 + unixEpochDays) from rfl,
      harg]
  calc firstOfNextMonth now
      = dateToUnix (dateOfUnix (beginningOfMonth now + fortyFiveDays)).1
          (dateOfUnix (beginningOfMonth now + fortyFiveDays)).2.1 1 := rfl
    _ = dateToUnix (absDate (monthStartDays (dateOfUnix now).1 (dateOfUnix now).2.1 + 45)).1
          (absDate (monthStartDays (dateOfUnix now).1 (dateOfUnix now).2.1 + 45)).2.1 1 := by
        rw [hded]
    _ = _ := by rw [hkey.1, hkey.2]

/-! ## Facts about the list folds of `earliest` and
`getMostRecentEncryptionSubkey` -/

theorem earliest_foldl_spec (rest : List Int) (t : Int) :
    (rest.foldl (fun earliestSoFar u => if u < earliestSoFar then u else earliestSoFar) t = t ∨
     rest.foldl (fun earliestSoFar u => if u < earliestSoFar then u else earliestSoFar) t ∈ rest) ∧
    rest.foldl (fun earliestSoFar u => if u < earliestSoFar then u else earliestSoFar) t ≤ t ∧
    (∀ u ∈ rest,
      rest.foldl (fun earliestSoFar u => if u < earliestSoFar then u else earliestSoFar) t ≤ u) := by
  induction rest generalizing t with
  | nil => exact ⟨Or.inl rfl, le_refl t, by simp⟩
  | cons u us ih =>
    simp only [List.foldl_cons]
    obtain ⟨ihmem, ihle, ihall⟩ := ih (if u < t then u else t)
    refine ⟨?_, ?_, ?_⟩
    · rcases ihmem with h | h
      · rw [h]
        split_ifs with hc
        · exact Or.inr (List.mem_cons_self u us)
        · exact Or.inl rfl
      · exact Or.inr (List.mem_cons_of_mem u h)
    · refine le_trans ihle ?_
      split_ifs with hc <;> omega
    · intro v hv
      rcases List.mem_cons.mp hv with rfl | hv
      · refine le_trans ihle ?_
        split_ifs with hc <;> omega
      · exact ihall v hv

theorem earliest_spec (l : List Int) (e : Int) (h : earliest l = some e) :
    e ∈ l ∧ ∀ t ∈ l, e ≤ t := by
  match l with
  | [] => simp [earliest] at h
  | t :: rest =>
    simp only [earliest, Option.some.injEq] at h
    obtain ⟨hmem, hle, hall⟩ := earliest_foldl_spec rest t
    subst h
    refine ⟨?_, ?_⟩
    · rcases hmem with h | h
      · rw [h]; exact List.mem_cons_self t rest
      · exact List.mem_cons_of_mem t h
    · intro u hu
      rcases List.mem_cons.mp hu with rfl | hu
      · exact hle
      · exact hall u hu

theorem mostRecent_foldl_spec (rest : List Subkey) (s : Subkey) :
    (rest.foldl (fun best sk =>
        if best.PublicKey.CreationTime < sk.PublicKey.CreationTime then sk else best) s = s ∨
     rest.foldl (fun best sk =>
        if best.PublicKey.CreationTime < sk.PublicKey.CreationTime then sk else best) s ∈ rest) ∧
    s.PublicKey.CreationTime ≤ (rest.foldl (fun best sk =>
        if best.PublicKey.CreationTime < sk.PublicKey.CreationTime then sk else best)
          s).PublicKey.CreationTime ∧
    (∀ x ∈ rest, x.PublicKey.CreationTime ≤ (rest.foldl (fun best sk =>
        if best.PublicKey.CreationTime < sk.PublicKey.CreationTime then sk else best)
          s).PublicKey.CreationTime) := by
  induction rest generalizing s with
  | nil => exact ⟨Or.inl rfl, le_refl _, by simp⟩
  | cons u us ih =>
    simp only [List.foldl_cons]
    obtain ⟨ihmem, ihle, ihall⟩ :=
      ih (if s.PublicKey.CreationTime < u.PublicKey.CreationTime then u else s)
    refine ⟨?_, ?_, ?_⟩
    · rcases ihmem with h | h
      · rw [h]
        split_ifs with hc
        · exact Or.inr (List.mem_cons_self u us)
        · exact Or.inl rfl
      · exact Or.inr (List.mem_cons_of_mem u h)
    · refine le_trans ?_ ihle
      split_ifs with hc <;> omega
    · intro v hv
      rcases List.mem_cons.mp hv with rfl | hv
      · refine le_trans ?_ ihle
        split_ifs with hc <;> omega
      · exact ihall v hv

/-! ## Claims about the Expiry Resolver and the day-count helpers -/

/-- C8: `calculateExpiry` with an absent or zero lifetime reports no expiry;
with a strictly positive lifetime `L` it reports the creation time plus `L`
seconds (UTC); it is total (no error conditions). -/
theorem calculateExpiry_spec (t : Int) (L : Nat) :
    calculateExpiry t none = none ∧ calculateExpiry t (some 0) = none ∧
    (0 < L → calculateExpiry t (some L) = some (t + (L : Int))) := by
  refine ⟨rfl, rfl, fun hL => ?_⟩
  simp only [calculateExpiry]
  rw [if_neg (by omega : ¬ L = 0)]

/-- Witness for C8 at `t = 100`, `L = 7`. -/
theorem calculateExpiry_spec_witness :
    calculateExpiry 100 (some 7) = some 107 := by
  simpa using (calculateExpiry_spec 100 7).2.2 (by decide)

/-- C2 counterexample: at `expiry = -100`, `now = 0` the expiry is strictly
before `now`, yet `getDaysUntilExpiry` does not fail (it returns 0, because
Go's `int(...)` truncates `-100/86400` toward zero), and `getDaysSinceExpiry`
succeeds as well, so neither "fails whenever expiry is strictly before now"
nor "exactly one of the two is valid" holds. -/
theorem daysHelpers_counterexample :
    (-100 : Int) < 0 ∧ getDaysUntilExpiry (-100) 0 = some 0 ∧
      getDaysSinceExpiry (-100) 0 = some 0 := by decide

/-- C2 (amended): `getDaysUntilExpiry` returns the seconds until expiry
divided by 86400 truncated toward zero and fails exactly when that count is
negative, i.e. exactly when the expiry is at least one whole day before
`now`; symmetrically `getDaysSinceExpiry` fails exactly when the expiry is
at least one whole day after `now`.  Within one day of `now` (on either
side) both helpers succeed with 0; otherwise exactly one succeeds. -/
theorem daysHelpers_amended (expiry now : Int) :
    (getDaysUntilExpiry expiry now = none ↔ expiry ≤ now - 86400) ∧
    (getDaysSinceExpiry expiry now = none ↔ now + 86400 ≤ expiry) ∧
    (∀ d : Nat, getDaysUntilExpiry expiry now = some d → (d : Int) = inDays (expiry - now)) ∧
    (∀ d : Nat, getDaysSinceExpiry expiry now = some d → (d : Int) = inDays (now - expiry)) := by
  refine ⟨?_, ?_, ?_, ?_⟩
  · simp only [getDaysUntilExpiry, inDays]
    split_ifs with h1 h2 h2 <;> simp <;> omega
  · simp only [getDaysSinceExpiry, inDays]
    split_ifs with h1 h2 h2 <;> simp <;> omega
  · intro d hd
    simp only [getDaysUntilExpiry] at hd
    split_ifs at hd with h
    simp only [Option.some.injEq] at hd
    subst hd
    exact Int.toNat_of_nonneg (by omega)
  · intro d hd
    simp only [getDaysSinceExpiry] at hd
    split_ifs at hd with h
    simp only [Option.some.injEq] at hd
    subst hd
    exact Int.toNat_of_nonneg (by omega)

/-- Witness for C2 (amended) at `expiry = 100000`, `now = 0`. -/
theorem daysHelpers_amended_witness :
    getDaysUntilExpiry 100000 0 = some 1 ∧ ((1 : Nat) : Int) = inDays (100000 - 0) :=
  ⟨by decide, (daysHelpers_amended 100000 0).2.2.1 1 (by decide)⟩

/-! ## Claims about the Warning Aggregator -/

/-- C6: a key with zero identities and zero subkeys yields exactly
`[PrimaryKeyNoExpiry, NoValidEncryptionSubkey]` in that order, and in
general `GetKeyWarnings` is the primary-key warnings followed by the subkey
warnings. -/
theorem getKeyWarnings_empty_and_concat (pk : PublicKey) (now : Int) :
    GetKeyWarnings { PrimaryKey := pk, Identities := [], Subkeys := [] } now =
      some [{ Type' := WarningType.PrimaryKeyNoExpiry },
            { Type' := WarningType.NoValidEncryptionSubkey }] ∧
    ∀ (key : PgpKey) (p s : List KeyWarning),
      getPrimaryKeyWarnings key now = some p → getEncryptionSubkeyWarnings key now = some s →
      GetKeyWarnings key now = some (p ++ s) := by
  constructor
  · rfl
  · intro key p s hp hs
    simp only [GetKeyWarnings, hp, hs]

/-- Witness for C6 at the empty key and `now = 0`. -/
theorem getKeyWarnings_empty_and_concat_witness :
    GetKeyWarnings emptyKey 0 =
      some ([{ Type' := WarningType.PrimaryKeyNoExpiry }] ++
            [{ Type' := WarningType.NoValidEncryptionSubkey }]) :=
  (getKeyWarnings_empty_and_concat { KeyId := 6, CreationTime := 0 } 0).2 emptyKey _ _
    (by decide) (by decide)

/-! ## Claims about the Primary-Key Evaluator's choice of expiry -/

/-- C5: when some identity resolves to an expiry, `getEarliestUidExpiry`
returns one of the resolved expiries that is a minimum of all of them, and
the primary-key warnings depend on the key only through that earliest
expiry (later expiries are ignored). -/
theorem earliestUid_spec (key : PgpKey) (now e : Int)
    (h : getEarliestUidExpiry key = some e) :
    e ∈ resolvedUidExpiries key ∧ (∀ t ∈ resolvedUidExpiries key, e ≤ t) ∧
    ∀ key2, getEarliestUidExpiry key2 = some e →
      getPrimaryKeyWarnings key2 now = getPrimaryKeyWarnings key now := by
  obtain ⟨hm, hall⟩ := earliest_spec (resolvedUidExpiries key) e h
  refine ⟨hm, hall, fun key2 h2 => ?_⟩
  simp only [getPrimaryKeyWarnings, h, h2]

/-- Witness for C5: on a key with identities expiring after 5 and 100 days,
the earliest (5-day) expiry is among the resolved ones, it is minimal, and
a key with only the 5-day identity produces identical primary-key
warnings. -/
theorem earliestUid_spec_witness :
    ((432000 : Int) ∈ resolvedUidExpiries twoUidKey ∧
      ∀ t ∈ resolvedUidExpiries twoUidKey, (432000 : Int) ≤ t) ∧
    getPrimaryKeyWarnings oneUidKey 0 = getPrimaryKeyWarnings twoUidKey 0 := by
  obtain ⟨h1, h2, h3⟩ := earliestUid_spec twoUidKey 0 432000 (by decide)
  exact ⟨⟨h1, h2⟩, h3 oneUidKey (by decide)⟩

/-! ## Claims about the Subkey Evaluator -/

/-- C7: when the selected encryption subkey is already expired, the subkey
evaluator succeeds and emits a `NoValidEncryptionSubkey` warning (the same
kind as when no eligible subkey exists), and no `SubkeyOverdueForRotation`
or `SubkeyDueForRotation` warning. -/
theorem expiredSubkey_noValid (key : PgpKey) (now : Int) (sk : Subkey) (expiry : Int)
    (hsel : getMostRecentEncryptionSubkey key = some sk)
    (hexp : getSubkeyExpiry sk = some expiry)
    (hexpired : isExpired expiry now = true) :
    ∃ ws, getEncryptionSubkeyWarnings key now = some ws ∧
      ws.head? = some { Type' := WarningType.NoValidEncryptionSubkey } ∧
      hasWarningOfType ws WarningType.SubkeyOverdueForRotation = false ∧
      hasWarningOfType ws WarningType.SubkeyDueForRotation = false := by
  simp only [getEncryptionSubkeyWarnings, hsel, hexp, hexpired, if_true]
  refine ⟨_, rfl, rfl, ?_, ?_⟩ <;>
    · simp only [hasWarningOfType, List.any_append, List.any_cons, List.any_nil]
      split_ifs <;> simp

/-- Witness for C7: a key whose only subkey expired 9 days before `now`. -/
theorem expiredSubkey_noValid_witness :
    ∃ ws, getEncryptionSubkeyWarnings expiredSubkeyKey 864000 = some ws ∧
      ws.head? = some { Type' := WarningType.NoValidEncryptionSubkey } ∧
      hasWarningOfType ws WarningType.SubkeyOverdueForRotation = false ∧
      hasWarningOfType ws WarningType.SubkeyDueForRotation = false :=
  expiredSubkey_noValid expiredSubkeyKey 864000
    { PublicKey := { KeyId := 7, CreationTime := 0 }, Sig := encSig (some 86400) }
    86400 (by decide) (by decide) (by decide)

/-- In the overdue state the day count passed to `getDaysUntilExpiry` is the
next-rotation time, which is then more than ten days in the past, so the
helper hits its negative-days check and panics. -/
theorem overdue_daysUntil_panics (nextRotation now : Int)
    (h : isOverdueForRotation nextRotation now = true) :
    getDaysUntilExpiry nextRotation now = none := by
  simp only [isOverdueForRotation, tenDays, decide_eq_true_eq] at h
  simp only [getDaysUntilExpiry, inDays]
  split_ifs with h1 h2 h2 <;> first | rfl | omega

/-- C1: the claim says the subkey evaluator emits `SubkeyOverdueForRotation`
with a days-until count and does not fail; the code instead always panics in
this state, because line 49 of `status.go` passes `nextRotation` rather than
`*expiry` to `getDaysUntilExpiry` (compare line 98, the primary-key path),
and in the overdue state `nextRotation` is more than ten days in the past,
so the helper's negative check fires.  The warning can never be produced. -/
theorem subkeyOverdue_panics (key : PgpKey) (now : Int) (sk : Subkey) (expiry : Int)
    (hsel : getMostRecentEncryptionSubkey key = some sk)
    (hexp : getSubkeyExpiry sk = some expiry)
    (hne : isExpired expiry now = false)
    (hover : isOverdueForRotation (calculateNextRotationTime expiry) now = true) :
    getEncryptionSubkeyWarnings key now = none := by
  simp only [getEncryptionSubkeyWarnings, hsel, hexp, hne, hover,
    overdue_daysUntil_panics _ _ hover, Bool.false_eq_true, if_false, if_true]

/-- Witness for C1: a subkey expiring 25 days after creation, evaluated 20
days after creation: not expired, overdue, and the evaluator panics. -/
theorem subkeyOverdue_panics_witness :
    getEncryptionSubkeyWarnings overdueSubkeyKey 1728000 = none :=
  subkeyOverdue_panics overdueSubkeyKey 1728000
    { PublicKey := { KeyId := 2, CreationTime := 0 }, Sig := encSig (some (25 * 86400)) }
    2160000 (by decide) (by decide) (by decide) (by decide)

/-- C9: the selected subkey is drawn from the eligible subkeys (valid flags
and at least one encryption capability), it has maximal creation time among
them, and the subkey warnings depend on the key only through the selected
subkey, so no other eligible subkey contributes any warning. -/
theorem mostRecentSubkey_spec (key : PgpKey) (now : Int) (sk : Subkey)
    (h : getMostRecentEncryptionSubkey key = some sk) :
    sk ∈ eligibleSubkeys key ∧
    (sk.Sig.FlagsValid && (sk.Sig.FlagEncryptCommunications || sk.Sig.FlagEncryptStorage))
      = true ∧
    (∀ other ∈ eligibleSubkeys key,
      other.PublicKey.CreationTime ≤ sk.PublicKey.CreationTime) ∧
    ∀ key2, getMostRecentEncryptionSubkey key2 = getMostRecentEncryptionSubkey key →
      getEncryptionSubkeyWarnings key2 now = getEncryptionSubkeyWarnings key now := by
  have hmain : sk ∈ eligibleSubkeys key ∧
      ∀ other ∈ eligibleSubkeys key,
        other.PublicKey.CreationTime ≤ sk.PublicKey.CreationTime := by
    revert h
    simp only [getMostRecentEncryptionSubkey]
    match hel : eligibleSubkeys key with
    | [] => intro h; cases h
    | s :: rest =>
      intro h
      simp only [Option.some.injEq] at h
      obtain ⟨hmem, hle, hall⟩ := mostRecent_foldl_spec rest s
      subst h
      constructor
      · rcases hmem with h | h
        · rw [h]; exact List.mem_cons_self s rest
        · exact List.mem_cons_of_mem s h
      · intro other hother
        rcases List.mem_cons.mp hother with rfl | hother
        · exact hle
        · exact hall other hother
  obtain ⟨hmem, hmax⟩ := hmain
  refine ⟨hmem, ?_, hmax, fun key2 h2 => ?_⟩
  · have h' : sk ∈ key.Subkeys.filter (fun subkey =>
        subkey.Sig.FlagsValid &&
          (subkey.Sig.FlagEncryptCommunications || subkey.Sig.FlagEncryptStorage)) := hmem
    simpa using (List.mem_filter.mp h').2
  · simp only [getEncryptionSubkeyWarnings, h2, h]

/-- Witness for C9: of two eligible subkeys created at 0 and 86400 (plus an
ineligible one), the one created at 86400 is selected, and a key holding
only that subkey yields the same subkey warnings. -/
theorem mostRecentSubkey_spec_witness :
    ({ PublicKey := { KeyId := 10, CreationTime := 86400 },
       Sig := encSig (some (200 * 86400)) } : Subkey) ∈ eligibleSubkeys twoSubkeyKey ∧
    getEncryptionSubkeyWarnings oneSubkeyKey 0 = getEncryptionSubkeyWarnings twoSubkeyKey 0 := by
  obtain ⟨h1, _, _, h4⟩ := mostRecentSubkey_spec twoSubkeyKey 0
    { PublicKey := { KeyId := 10, CreationTime := 86400 },
      Sig := encSig (some (200 * 86400)) } (by decide)
  exact ⟨h1, h4 oneSubkeyKey (by decide)⟩

/-- C4: with at least one identity expiry, the primary-key evaluator
succeeds and emits at most one rotation-state warning, chosen by the
precedence expired > overdue > due: `PrimaryKeyExpired` carries the whole
days since expiry, `PrimaryKeyOverdueForRotation` carries the days until
expiry, `PrimaryKeyDueForRotation` carries no day count, and nothing is
emitted when `now` is not past the next-rotation time. -/
theorem primaryRotation_precedence (key : PgpKey) (now expiry : Int)
    (h : getEarliestUidExpiry key = some expiry) :
    ∃ ws, getPrimaryKeyWarnings key now = some ws ∧
      (ws.filter isPrimaryRotationWarning).length ≤ 1 ∧
      (isExpired expiry now = true →
        ws.filter isPrimaryRotationWarning =
          [{ Type' := WarningType.PrimaryKeyExpired,
             DaysSinceExpiry := (inDays (now - expiry)).toNat }]) ∧
      (isExpired expiry now = false →
        isOverdueForRotation (calculateNextRotationTime expiry) now = true →
        ws.filter isPrimaryRotationWarning =
          [{ Type' := WarningType.PrimaryKeyOverdueForRotation,
             DaysUntilExpiry := (inDays (expiry - now)).toNat }]) ∧
      (isExpired expiry now = false →
        isOverdueForRotation (calculateNextRotationTime expiry) now = false →
        isDueForRotation (calculateNextRotationTime expiry) now = true →
        ws.filter isPrimaryRotationWarning =
          [{ Type' := WarningType.PrimaryKeyDueForRotation }]) ∧
      (isDueForRotation (calculateNextRotationTime expiry) now = false →
        ws.filter isPrimaryRotationWarning = []) := by
  simp only [getPrimaryKeyWarnings, h]
  cases hexp : isExpired expiry now with
  | true =>
    have hlt : expiry < now := by simpa [isExpired] using hexp
    have hds : getDaysSinceExpiry expiry now = some (inDays (now - expiry)).toNat := by
      simp only [getDaysSinceExpiry]
      rw [if_neg]
      simp only [inDays]
      split_ifs <;> omega
    simp only [hds, if_true]
    refine ⟨_, rfl, ?_, ?_, ?_, ?_, ?_⟩
    · simp only [List.filter_append]
      split_ifs <;>
        simp [isPrimaryRotationWarning, List.filter_cons, List.filter_nil]
    · intro _
      simp only [List.filter_append]
      split_ifs <;>
        simp [isPrimaryRotationWarning, List.filter_cons, List.filter_nil]
    · intro hf
      exact absurd hf (by decide)
    · intro hf
      exact absurd hf (by decide)
    · intro hdue
      have hd : ¬ calculateNextRotationTime expiry < now := by
        simpa [isDueForRotation] using hdue
      simp only [calculateNextRotationTime, thirtyDays] at hd
      omega
  | false =>
    have hge : ¬ expiry < now := by simpa [isExpired] using hexp
    simp only [Bool.false_eq_true, if_false]
    cases hover : isOverdueForRotation (calculateNextRotationTime expiry) now with
    | true =>
      have hdu : getDaysUntilExpiry expiry now = some (inDays (expiry - now)).toNat := by
        simp only [getDaysUntilExpiry]
        rw [if_neg]
        simp only [inDays]
        split_ifs <;> omega
      simp only [hdu, if_true]
      refine ⟨_, rfl, ?_, ?_, ?_, ?_, ?_⟩
      · simp only [List.filter_append]
        split_ifs <;>
          simp [isPrimaryRotationWarning, List.filter_cons, List.filter_nil]
      · intro hf
        exact absurd hf (by decide)
      · intro _ _
        simp only [List.filter_append]
        split_ifs <;>
          simp [isPrimaryRotationWarning, List.filter_cons, List.filter_nil]
      · intro _ hf
        exact absurd hf (by decide)
      · intro hdue
        have h1 : ¬ calculateNextRotationTime expiry < now := by
          simpa [isDueForRotation] using hdue
        have h2 : calculateNextRotationTime expiry + tenDays < now := by
          simpa [isOverdueForRotation] using hover
        simp only [tenDays] at h2
        omega
    | false =>
      simp only [Bool.false_eq_true, if_false]
      cases hdue : isDueForRotation (calculateNextRotationTime expiry) now with
      | true =>
        simp only [if_true]
        refine ⟨_, rfl, ?_, ?_, ?_, ?_, ?_⟩
        · simp only [List.filter_append]
          split_ifs <;>
            simp [isPrimaryRotationWarning, List.filter_cons, List.filter_nil]
        · intro hf
          exact absurd hf (by decide)
        · intro _ hf
          exact absurd hf (by decide)
        · intro _ _
          simp only [List.filter_append]
          split_ifs <;>
            simp [isPrimaryRotationWarning, List.filter_cons, List.filter_nil]
        · intro hf
          exact absurd hf (by decide)
      | false =>
        simp only [Bool.false_eq_true, if_false]
        refine ⟨_, rfl, ?_, ?_, ?_, ?_, ?_⟩
        · simp only [List.filter_append]
          split_ifs <;>
            simp [isPrimaryRotationWarning, List.filter_cons, List.filter_nil]
        · intro hf
          exact absurd hf (by decide)
        · intro _ hf
          exact absurd hf (by decide)
        · intro _ _ hf
          exact absurd hf (by decide)
        · intro _
          simp only [List.filter_append]
          split_ifs <;>
            simp [isPrimaryRotationWarning, List.filter_cons, List.filter_nil]

/-- Witness for C4: a key whose sole identity expired exactly 40 days
before `now` yields exactly one rotation-state warning, `PrimaryKeyExpired`
with a days-since count of 40. -/
theorem primaryRotation_precedence_witness :
    ∃ ws, getPrimaryKeyWarnings expired40Key 3542400 = some ws ∧
      ws.filter isPrimaryRotationWarning =
        [{ Type' := WarningType.PrimaryKeyExpired, DaysSinceExpiry := 40 }] := by
  obtain ⟨ws, h1, _, h3, _⟩ := primaryRotation_precedence expired40Key 3542400 86400 (by decide)
  refine ⟨ws, h1, ?_⟩
  rw [h3 (by decide)]
  decide

/-! ## Claims about the too-long-expiry ceiling -/

/-- `beginningOfMonth` never exceeds its argument and lies less than 31
days before it. -/
theorem beginningOfMonth_bounds (t : Int) :
    beginningOfMonth t ≤ t ∧ t < beginningOfMonth t + 31 * 86400 := by
  have h := monthStartDays_le (t / 86400 + unixEpochDays)
  simp only [beginningOfMonth, dateToUnix, dateOfUnix, monthStartDays] at h ⊢
  omega

/-- C3 counterexample: at `now` = 2018-01-15 the code's ceiling is
2018-03-03 (first of the next month, February 1, plus 30 days), while the
first month starting at least 45 days after January 1 is March, so the
claimed ceiling is 2018-03-31; an expiry of 2018-03-10 is flagged as too
long by the code but is not after the claimed ceiling. -/
theorem tooLongCeiling_counterexample :
    nextExpiryTime 1515974400 = 1520035200 ∧
    claimedLatestAcceptable 1515974400 = 1522454400 ∧
    nextExpiryTime 1515974400 ≠ claimedLatestAcceptable 1515974400 ∧
    isExpiryTooLong 1520640000 1515974400 = true ∧
    ¬ claimedLatestAcceptable 1515974400 < 1520640000 := by decide

/-- C3 (amended): the too-long ceiling is the first day (00:00 UTC) of the
month immediately after the month containing `now` (January 1 of the next
year when `now` is in December) plus 30 days, and the flag is exclusive on
the too-long side: an expiry exactly at the ceiling is not flagged while
one second later is. -/
theorem tooLongCeiling_amended (expiry now : Int) :
    nextExpiryTime now =
      dateToUnix
        (if (dateOfUnix now).2.1 = 12 then (dateOfUnix now).1 + 1 else (dateOfUnix now).1)
        (if (dateOfUnix now).2.1 = 12 then 1 else (dateOfUnix now).2.1 + 1) 1
        + thirtyDays ∧
    (isExpiryTooLong expiry now = true ↔
      dateToUnix
        (if (dateOfUnix now).2.1 = 12 then (dateOfUnix now).1 + 1 else (dateOfUnix now).1)
        (if (dateOfUnix now).2.1 = 12 then 1 else (dateOfUnix now).2.1 + 1) 1
        + thirtyDays < expiry) ∧
    isExpiryTooLong
      (dateToUnix
        (if (dateOfUnix now).2.1 = 12 then (dateOfUnix now).1 + 1 else (dateOfUnix now).1)
        (if (dateOfUnix now).2.1 = 12 then 1 else (dateOfUnix now).2.1 + 1) 1
        + thirtyDays) now = false ∧
    isExpiryTooLong
      (dateToUnix
        (if (dateOfUnix now).2.1 = 12 then (dateOfUnix now).1 + 1 else (dateOfUnix now).1)
        (if (dateOfUnix now).2.1 = 12 then 1 else (dateOfUnix now).2.1 + 1) 1
        + thirtyDays + 1) now = true := by
  have hne : nextExpiryTime now =
      dateToUnix
        (if (dateOfUnix now).2.1 = 12 then (dateOfUnix now).1 + 1 else (dateOfUnix now).1)
        (if (dateOfUnix now).2.1 = 12 then 1 else (dateOfUnix now).2.1 + 1) 1
        + thirtyDays := by
    simp only [nextExpiryTime, firstOfNextMonth_eq now]
  refine ⟨hne, ?_, ?_, ?_⟩
  · rw [← hne]
    simp only [isExpiryTooLong, decide_eq_true_eq]
  · rw [← hne]
    simp only [isExpiryTooLong, decide_eq_false_iff_not]
    omega
  · rw [← hne]
    simp only [isExpiryTooLong, decide_eq_true_eq]
    omega

/-- Witness for C3 (amended) at `now` = 2018-01-15: the ceiling is
February 1, 2018 plus 30 days, and an expiry one second past the ceiling
is flagged. -/
theorem tooLongCeiling_amended_witness :
    nextExpiryTime 1515974400 = dateToUnix 2018 2 1 + thirtyDays ∧
    isExpiryTooLong (dateToUnix 2018 2 1 + thirtyDays + 1) 1515974400 = true := by
  obtain ⟨h1, h2, h3, h4⟩ :=
    tooLongCeiling_amended (dateToUnix 2018 2 1 + thirtyDays + 1) 1515974400
  exact ⟨h1.trans (by decide), h2.mpr (by decide)⟩

/-- The ceiling is always strictly after `now` (it is at least 30 days
after the start of the month containing the instant 45 days after the
start of the current month). -/
theorem now_lt_nextExpiryTime (now : Int) : now < nextExpiryTime now := by
  obtain ⟨h1, h2⟩ := beginningOfMonth_bounds now
  obtain ⟨h3, h4⟩ := beginningOfMonth_bounds (beginningOfMonth now + fortyFiveDays)
  simp only [nextExpiryTime, firstOfNextMonth, fortyFiveDays, thirtyDays] at *
  omega

/-- C10: the too-long ceiling is strictly after `now`, so an expired
component can never be flagged as too long: `PrimaryKeyExpired` never
co-occurs with `PrimaryKeyLongExpiry`, and the `NoValidEncryptionSubkey`
warning never co-occurs with `SubkeyLongExpiry`. -/
theorem expired_excludes_longExpiry (key : PgpKey) (now : Int) :
    now < nextExpiryTime now ∧
    (∀ expiry : Int, isExpired expiry now = true → isExpiryTooLong expiry now = false) ∧
    (∀ ws, getPrimaryKeyWarnings key now = some ws →
      ¬(hasWarningOfType ws WarningType.PrimaryKeyExpired = true ∧
        hasWarningOfType ws WarningType.PrimaryKeyLongExpiry = true)) ∧
    (∀ ws, getEncryptionSubkeyWarnings key now = some ws →
      ¬(hasWarningOfType ws WarningType.NoValidEncryptionSubkey = true ∧
        hasWarningOfType ws WarningType.SubkeyLongExpiry = true)) := by
  have hceil := now_lt_nextExpiryTime now
  have hkey : ∀ expiry : Int, isExpired expiry now = true → isExpiryTooLong expiry now = false := by
    intro expiry hexp
    have h1 : expiry < now := by simpa [isExpired] using hexp
    simp only [isExpiryTooLong, decide_eq_false_iff_not]
    omega
  refine ⟨hceil, hkey, ?_, ?_⟩
  · intro ws hws
    rintro ⟨hexpw, hlongw⟩
    simp only [getPrimaryKeyWarnings] at hws
    split at hws
    · rename_i expiry heq
      split at hws
      · exact Option.noConfusion hws
      · rename_i ws' heq'
        injection hws with hws1
        subst hws1
        split_ifs at heq' with hexp hover hdue
        · have hlong := hkey expiry hexp
          split at heq'
          · exact Option.noConfusion heq'
          · rename_i d hd
            injection heq' with h
            subst h
            simp [hasWarningOfType, hlong] at hlongw
        · split at heq'
          · exact Option.noConfusion heq'
          · rename_i d hd
            injection heq' with h
            subst h
            cases hl : isExpiryTooLong expiry now <;>
              simp [hasWarningOfType, hl] at hexpw
        · injection heq' with h
          subst h
          cases hl : isExpiryTooLong expiry now <;>
            simp [hasWarningOfType, hl] at hexpw
        · injection heq' with h
          subst h
          cases hl : isExpiryTooLong expiry now <;>
            simp [hasWarningOfType, hl] at hexpw
    · injection hws with h
      subst h
      simp [hasWarningOfType] at hexpw
  · intro ws hws
    rintro ⟨hnvw, hlongw⟩
    simp only [getEncryptionSubkeyWarnings] at hws
    split at hws
    · injection hws with h
      subst h
      simp [hasWarningOfType] at hlongw
    · rename_i sk heq
      split at hws
      · rename_i expiry hse
        split at hws
        · exact Option.noConfusion hws
        · rename_i ws' heq'
          injection hws with hws1
          subst hws1
          split_ifs at heq' with hexp hover hdue
          · injection heq' with h
            subst h
            have hlong := hkey expiry hexp
            simp [hasWarningOfType, hlong] at hlongw
          · split at heq'
            · exact Option.noConfusion heq'
            · rename_i d hd
              injection heq' with h
              subst h
              cases hl : isExpiryTooLong expiry now <;>
                simp [hasWarningOfType, hl] at hnvw
          · injection heq' with h
            subst h
            cases hl : isExpiryTooLong expiry now <;>
              simp [hasWarningOfType, hl] at hnvw
          · injection heq' with h
            subst h
            cases hl : isExpiryTooLong expiry now <;>
              simp [hasWarningOfType, hl] at hnvw
      · injection hws with h
        subst h
        simp [hasWarningOfType] at hlongw

/-- Witness for C10 at the expired-subkey key and `now` ten days after
creation. -/
theorem expired_excludes_longExpiry_witness :
    (864000 : Int) < nextExpiryTime 864000 ∧
    isExpiryTooLong 86400 864000 = false := by
  obtain ⟨h1, h2, _, _⟩ := expired_excludes_longExpiry expiredSubkeyKey 864000
  exact ⟨h1, h2 86400 (by decide)⟩
